import Mathlib

/-!
Shallow embedding of the `safestructures` codec core (the recursive,
type-dispatched serialization engine of `src/safestructures`): schema data
model, processor dispatch, the save/load mode protocol, the type-key
resolver, the plugin registry, and the persistence-metadata handling.
Python values are embedded as an inductive type, machine state (the tensor
store) is threaded explicitly, fallible code returns `Except`, and the
Python call stack is modelled by an explicit fuel argument (Python raises
`RecursionError` when the interpreter recursion limit is exceeded; fuel
exhaustion plays that role here, so a function that returns an error for
every fuel diverges in Python).
-/

namespace Safestructures

/-- JSON-representable values, as produced by `json.dumps`/`json.loads` on the
schema tree.  A schema node is a `Json.obj`; per `DataProcessor.serialize`
(processors/base.py) serialized values are strings, booleans, null, lists and
dictionaries of the same.  Object fields keep Python dict insertion order. -/
inductive Json where
  | s (v : String)
  | b (v : Bool)
  | null
  | arr (xs : List Json)
  | obj (kvs : List (String × Json))

/-- A raw numeric array in canonical host-memory form (the payload a numpy
`ndarray` carries).  Its contents are opaque to the codec core: the engine only
moves it in and out of the tensor store. -/
structure NDArr where
  data : List Int
deriving DecidableEq

/-- A value stored in `Serializer.tensors`.  Normally an array; the `strId`
case records what the buggy `TensorProcessor.process_tensor` would store (the
result of `self.serialize(tensor)` is the id string, not the tensor) if its
recursion ever returned. -/
inductive TensorVal where
  | arr (a : NDArr)
  | strId (s : String)
deriving DecidableEq

/-- The engine's tensor store, `Serializer.tensors`: a Python dict from string
array id to tensor, in insertion order. -/
abbrev Store := List (String × TensorVal)

/-- Embedded Python values covering the types handled by the default registry
plus user-defined classes.  `floatV`/`complexV` carry the CPython `repr`
string of the number: CPython floats and complexes are in bijection with their
`repr` strings (`float(repr(x)) == x`), and the codec only ever converts them
to and from exactly these strings.  `setV` carries the host iteration order.
`dataclassV` carries the defining module, the class name and the declared
fields in declaration order; `customV` is an instance of a non-dataclass
user class. -/
inductive PyVal where
  | intV (n : Int)
  | floatV (r : String)
  | complexV (r : String)
  | strV (s : String)
  | boolV (b : Bool)
  | noneV
  | listV (xs : List PyVal)
  | setV (xs : List PyVal)
  | tupleV (xs : List PyVal)
  | dictV (kvs : List (PyVal × PyVal))
  | dataclassV (modName clsName : String) (fields : List (String × PyVal))
  | arrayV (a : NDArr)
  | customV (modName clsName : String)

/-- Runtime Python types (what `type(data)` yields), plus `markerT` for the
`Dataclass` protocol class of processors/iterable.py (the generic-record
marker used as a registry key and schema type key for dataclasses). -/
inductive PyType where
  | intT | floatT | complexT | strT | boolT | noneT
  | listT | setT | tupleT | dictT | ndarrayT
  | markerT
  | dataclassT (modName clsName : String)
  | customT (modName clsName : String)
deriving DecidableEq

/-- Embedded Python exceptions raised by the codec paths under study.
`recursionError` is CPython's `RecursionError` (recursion limit exceeded),
which in this embedding is the meaning of running out of fuel. -/
inductive PyErr where
  | typeError (msg : String)
  | keyError (key : String)
  | valueError (msg : String)
  | importError (msg : String)
  | recursionError
deriving DecidableEq

/-- Runtime type of a value: `type(data)`. -/
def typeOf : PyVal → PyType
  | .intV _ => .intT
  | .floatV _ => .floatT
  | .complexV _ => .complexT
  | .strV _ => .strT
  | .boolV _ => .boolT
  | .noneV => .noneT
  | .listV _ => .listT
  | .setV _ => .setT
  | .tupleV _ => .tupleT
  | .dictV _ => .dictT
  | .dataclassV m c _ => .dataclassT m c
  | .arrayV _ => .ndarrayT
  | .customV m c => .customT m c

/-- The structural record predicate `dataclasses.is_dataclass(data)`. -/
def isDataclassVal : PyVal → Bool
  | .dataclassV _ _ _ => true
  | _ => false

/-- constants.py: the mandatory schema-node field holding the type key. -/
def TYPE_FIELD : String := "type"

/-- constants.py: the mandatory schema-node field holding the serialized value. -/
def VALUE_FIELD : String := "value"

/-- constants.py: reserved safetensors-metadata key holding the JSON schema. -/
def SCHEMA_FIELD : String := "_safestructures_schema_"

/-- constants.py: reserved safetensors-metadata key holding the schema version. -/
def VERSION_FIELD : String := "_safestructures_schema_version_"

/-- constants.py: the schema version string written on save. -/
def SCHEMA_VERSION : String := "1.0.0"

/-- Modelled from the spec: `KEYS_FIELD`, the name of the dict-processor's
extra side-table field, is imported from constants.py by
processors/iterable.py but the constants.py under src/ does not define it; the
spec calls the side-table `"keys"` (section 4.2, mapping processor). -/
def KEYS_FIELD : String := "keys"

/-- Modelled from the spec: `DATACLASS_NAME`, the fixed generic-record marker
string, is imported from constants.py by serializer.py but the constants.py
under src/ does not define it.  The spec requires the marker the resolver
accepts to be the marker the record processor emits, and
`DataclassProcessor.get_schema_type` emits `Dataclass.__name__`, which is
`"Dataclass"` for the protocol class of processors/iterable.py. -/
def DATACLASS_NAME : String := "Dataclass"

mutual

/-- Python `repr(v)` for the embedded values (fuel models the interpreter
stack, as everywhere in this file).  String quoting uses a plain single-quote
wrapper (escaping of quotes inside the string is not modelled; no claim
exercises it).  A one-element tuple renders with a trailing comma. -/
def pyRepr : Nat → PyVal → Except PyErr String
  | 0, _ => .error .recursionError
  | fuel + 1, v =>
      match v with
      | .intV n => .ok (toString n)
      | .floatV r => .ok r
      | .complexV r => .ok r
      | .strV s => .ok ("\x27" ++ s ++ "\x27")
      | .boolV b => .ok (if b then "True" else "False")
      | .noneV => .ok "None"
      | .listV xs =>
          match pyReprSeq fuel xs with
          | .error e => .error e
          | .ok body => .ok ("[" ++ body ++ "]")
      | .setV xs =>
          match pyReprSeq fuel xs with
          | .error e => .error e
          | .ok body => .ok ("\x7b" ++ body ++ "\x7d")
      | .tupleV xs =>
          match pyReprSeq fuel xs with
          | .error e => .error e
          | .ok body =>
              .ok (if xs.length = 1 then "(" ++ body ++ ",)" else "(" ++ body ++ ")")
      | .dictV kvs =>
          match pyReprPairs fuel kvs with
          | .error e => .error e
          | .ok body => .ok ("\x7b" ++ body ++ "\x7d")
      | .dataclassV _ c _ => .ok (c ++ "(...)")
      | .arrayV _ => .ok "array(...)"
      | .customV m c => .ok ("<" ++ m ++ "." ++ c ++ " object>")

/-- Comma-separated `repr`s of a sequence of values. -/
def pyReprSeq : Nat → List PyVal → Except PyErr String
  | 0, _ => .error .recursionError
  | _ + 1, [] => .ok ""
  | fuel + 1, [x] => pyRepr fuel x
  | fuel + 1, x :: xs =>
      match pyRepr fuel x with
      | .error e => .error e
      | .ok hd =>
          match pyReprSeq fuel xs with
          | .error e => .error e
          | .ok tl => .ok (hd ++ ", " ++ tl)

/-- Comma-separated `repr`s of dict entries. -/
def pyReprPairs : Nat → List (PyVal × PyVal) → Except PyErr String
  | 0, _ => .error .recursionError
  | _ + 1, [] => .ok ""
  | fuel + 1, (k, v) :: kvs =>
      match pyRepr fuel k with
      | .error e => .error e
      | .ok ks =>
          match pyRepr fuel v with
          | .error e => .error e
          | .ok vs =>
              match kvs with
              | [] => .ok (ks ++ ": " ++ vs)
              | _ =>
                  match pyReprPairs fuel kvs with
                  | .error e => .error e
                  | .ok tl => .ok (ks ++ ": " ++ vs ++ ", " ++ tl)

end

/-- Python `str(k)` as applied by `DictProcessor` to dictionary keys: the text
of the value (`str` of a string is the string itself; other values render as
their `repr`; numbers render as their decimal text). -/
def pyStr : Nat → PyVal → Except PyErr String
  | 0, _ => .error .recursionError
  | fuel + 1, v =>
      match v with
      | .strV s => .ok s
      | _ => pyRepr fuel v

/-- The `__module__` attribute of each embedded type. -/
def pyTypeModule : PyType → String
  | .intT | .floatT | .complexT | .strT | .boolT | .noneT
  | .listT | .setT | .tupleT | .dictT => "builtins"
  | .ndarrayT => "numpy"
  | .markerT => "safestructures.processors.iterable"
  | .dataclassT m _ => m
  | .customT m _ => m

/-- The `__qualname__` attribute of each embedded type. -/
def pyTypeQualname : PyType → String
  | .intT => "int"
  | .floatT => "float"
  | .complexT => "complex"
  | .strT => "str"
  | .boolT => "bool"
  | .noneT => "NoneType"
  | .listT => "list"
  | .setT => "set"
  | .tupleT => "tuple"
  | .dictT => "dict"
  | .ndarrayT => "ndarray"
  | .markerT => "Dataclass"
  | .dataclassT _ c => c
  | .customT _ c => c

/-- The dotted rendering Python uses inside `str(cls)`: bare qualname for
builtins, dotted path otherwise. -/
def dottedName (t : PyType) : String :=
  if pyTypeModule t = "builtins" then pyTypeQualname t
  else pyTypeModule t ++ "." ++ pyTypeQualname t

/-- Python `str(cls)` for a class, as interpolated into error messages and as
the registry key the buggy plugin registration uses. -/
def strOfType (t : PyType) : String :=
  "<class \x27" ++ dottedName t ++ "\x27>"

/-- utils/module.py `get_import_path`: full import path of a type; the
generic-record marker maps to the fixed marker string, builtins types to their
bare name, other types to `module.qualname`. -/
def get_import_path (t : PyType) : String :=
  if t = .markerT then DATACLASS_NAME
  else if pyTypeModule t = "builtins" then pyTypeQualname t
  else pyTypeModule t ++ "." ++ pyTypeQualname t

/-- Python `getattr(builtins, s)` restricted to the type-valued builtins
attributes this codec can dispatch on.  Non-type builtins attributes
(functions such as `print`) are omitted: resolving them would fail at the
registry lookup one step later, and no claim exercises them. -/
def builtinsHasAttr : String → Option PyType
  | "int" => some .intT
  | "float" => some .floatT
  | "complex" => some .complexT
  | "str" => some .strT
  | "bool" => some .boolT
  | "list" => some .listT
  | "set" => some .setT
  | "tuple" => some .tupleT
  | "dict" => some .dictT
  | _ => none

/-- Split a character list at its last dot: `(before, after)`, or `none` when
no dot occurs. -/
def splitLastDotAux : List Char → Option (List Char × List Char)
  | [] => none
  | c :: cs =>
      match splitLastDotAux cs with
      | some (pre, post) => some (c :: pre, post)
      | none => if c = '.' then some ([], cs) else none

/-- Python `type_str.rsplit(".", 1)`: split at the last dot, `none` when the
string has no dot (the two-name tuple unpacking then raises `ValueError`). -/
def rsplitDot (s : String) : Option (String × String) :=
  match splitLastDotAux s.data with
  | none => none
  | some (pre, post) => some (String.mk pre, String.mk post)

/-- The importable environment, modelled as the finite table of
`(module, attribute)` pairs that resolve to a type in the host environment of
this codec (numpy is a hard dependency; torch/tensorflow/jax are absent). -/
def importEnv : String → String → Option PyType
  | "numpy", "ndarray" => some .ndarrayT
  | _, _ => none

/-- serializer.py `Serializer._get_data_type`: resolve a schema type key back
to a runtime type.  Handles the `"None"`/`"NoneType"` synonyms, the
generic-record marker, builtins by bare name, then dotted import paths;
unresolvable keys raise `ImportError`. -/
def get_data_type (type_str : String) : Except PyErr PyType :=
  if type_str = "None" ∨ type_str = "NoneType" then .ok .noneT
  else if type_str = DATACLASS_NAME then .ok .markerT
  else
    match builtinsHasAttr type_str with
    | some t => .ok t
    | none =>
        match rsplitDot type_str with
        | none => .error (.importError ("Cannot import type: " ++ type_str))
        | some (m, c) =>
            match importEnv m c with
            | some t => .ok t
            | none => .error (.importError ("Cannot import type: " ++ type_str))

/-- The concrete processor classes of the default registry (defaults.py),
plus `pluginP i` for the i-th user plugin passed to the `Serializer`
constructor. -/
inductive ProcId where
  | intP | floatP | complexP | strP | boolP | noneP
  | listP | setP | tupleP | dictP | dataclassP | numpyP
  | pluginP (i : Nat)
deriving DecidableEq

/-- A key of `Serializer.process_map`.  Default entries are keyed by the type
object itself; the plugin-registration line `process_map[str(p.data_type)] = p`
keys plugins by the `str` of the type, so both kinds occur. -/
inductive RegKey where
  | ofType (t : PyType)
  | ofStr (s : String)
deriving DecidableEq

/-- A user plugin processor as far as registration and dispatch see it: a
`DataProcessor` subclass declaring a `data_type`. -/
structure Plugin where
  data_type : PyType
deriving DecidableEq

/-- defaults.py `DEFAULT_PROCESS_MAP`: the basic processors, the iterable
processors and the numpy processor, keyed by their `data_type`, in
registration order.  The torch/tensorflow/jax processors are conditional on
libraries absent from the modelled environment. -/
def DEFAULT_PROCESS_MAP : List (RegKey × ProcId) :=
  [(.ofType .intT, .intP), (.ofType .floatT, .floatP),
   (.ofType .complexT, .complexP), (.ofType .strT, .strP),
   (.ofType .boolT, .boolP), (.ofType .noneT, .noneP),
   (.ofType .listT, .listP), (.ofType .setT, .setP),
   (.ofType .tupleT, .tupleP), (.ofType .dictT, .dictP),
   (.ofType .markerT, .dataclassP), (.ofType .ndarrayT, .numpyP)]

/-- Python dict lookup `process_map[k]` as an `Option`. -/
def regLookup (pm : List (RegKey × ProcId)) (k : RegKey) : Option ProcId :=
  match pm with
  | [] => none
  | (k2, p) :: rest => if k2 = k then some p else regLookup rest k

/-- Python dict membership `k in process_map`. -/
def regContains (pm : List (RegKey × ProcId)) (k : RegKey) : Bool :=
  (regLookup pm k).isSome

/-- Python dict assignment `process_map[k] = p`: replace the entry in place
when the key exists, append otherwise. -/
def regSet (pm : List (RegKey × ProcId)) (k : RegKey) (p : ProcId) :
    List (RegKey × ProcId) :=
  if regContains pm k then
    pm.map (fun e => if e.1 = k then (k, p) else e)
  else pm ++ [(k, p)]

/-- serializer.py `Serializer._check_plugin`: raise `ValueError` when the
plugin's declared `data_type` is already a key of the registry.  (The
`issubclass(plugin, DataProcessor)` assertion holds for every `Plugin` value
by construction and is not modelled separately.) -/
def check_plugin (pm : List (RegKey × ProcId)) (p : Plugin) : Except PyErr Unit :=
  if regContains pm (.ofType p.data_type) then
    .error (.valueError ("Processor for " ++ strOfType p.data_type ++
      " already exists." ++ "Processors must be unique."))
  else .ok ()

/-- The plugin loop of `Serializer.__init__`: for each plugin, `_check_plugin`
then `process_map[str(p.data_type)] = p` (the registry key is the `str` of
the type object).  `i` numbers the plugins for the `pluginP` entries. -/
def initPlugins (pm : List (RegKey × ProcId)) :
    List Plugin → Nat → Except PyErr (List (RegKey × ProcId))
  | [], _ => .ok pm
  | p :: ps, i =>
      match check_plugin pm p with
      | .error e => .error e
      | .ok _ =>
          initPlugins (regSet pm (.ofStr (strOfType p.data_type)) (.pluginP i)) ps (i + 1)

/-- serializer.py `Serializer.__init__`: start from a deep copy of
`DEFAULT_PROCESS_MAP`, then register each plugin.  Returns the resulting
`process_map`, or the construction-time error. -/
def serializerInit (plugins : List Plugin) : Except PyErr (List (RegKey × ProcId)) :=
  initPlugins DEFAULT_PROCESS_MAP plugins 0

/-- The dispatch stage of serializer.py `Serializer.serialize` (lines 84-103):
take the runtime type of the data, fall back to the `Dataclass` marker when
that type has no registry entry but the value is a dataclass, then resolve the
processor; a failed lookup (`KeyError`) becomes the processor-not-found
`TypeError`. -/
def resolveSerializeProc (pm : List (RegKey × ProcId)) (v : PyVal) :
    Except PyErr ProcId :=
  let data_type := typeOf v
  let data_type :=
    if ¬ regContains pm (.ofType data_type) ∧ isDataclassVal v then PyType.markerT
    else data_type
  match regLookup pm (.ofType data_type) with
  | some p => .ok p
  | none =>
      .error (.typeError ("Processor for type " ++ strOfType data_type ++
        " not found." ++
        " Please create a plugin and use the plugins kwarg for the Serializer."))

/-- Lookup in a JSON object, Python `d[k]` as an `Option` (first occurrence;
objects built by this codec have unique keys). -/
def objLookup (kvs : List (String × Json)) (k : String) : Option Json :=
  match kvs with
  | [] => none
  | (k2, j) :: rest => if k2 = k then some j else objLookup rest k

/-- Python dict assignment `d[k] = j` on a JSON object: overwrite in place
when the key exists (keeping its position), append otherwise. -/
def objSet (kvs : List (String × Json)) (k : String) (j : Json) :
    List (String × Json) :=
  match kvs with
  | [] => [(k, j)]
  | (k2, j2) :: rest =>
      if k2 = k then (k, j) :: rest else (k2, j2) :: objSet rest k j

/-- Python dict assignment on the tensor store. -/
def storeSet (ts : Store) (k : String) (v : TensorVal) : Store :=
  match ts with
  | [] => [(k, v)]
  | (k2, v2) :: rest =>
      if k2 = k then (k, v) :: rest else (k2, v2) :: storeSet rest k v

/-- Python dict lookup on the tensor store. -/
def storeLookup (ts : Store) (k : String) : Option TensorVal :=
  match ts with
  | [] => none
  | (k2, v) :: rest => if k2 = k then some v else storeLookup rest k

/-- A schema node as assembled by `DataProcessor.__call__` in SAVE mode with
no extra fields: the type key then the value, in insertion order. -/
def mkNode (typeKey : String) (value : Json) : Json :=
  .obj [(TYPE_FIELD, .s typeKey), (VALUE_FIELD, value)]

mutual

/-- serializer.py `Serializer.serialize` on the default registry (the engine a
plain `Serializer()` uses in SAVE mode): resolve the processor for the
runtime type (with the dataclass fallback) and dispatch.  Fuel models the
Python call stack; running out is `RecursionError`. -/
def serializeVal : Nat → PyVal → Store → Except PyErr (Json × Store)
  | 0, _, _ => .error .recursionError
  | fuel + 1, v, ts =>
      match resolveSerializeProc DEFAULT_PROCESS_MAP v with
      | .error e => .error e
      | .ok p => procCallSave fuel p v ts

/-- processors/base.py `DataProcessor.__call__`, SAVE branch, specialized to
each registered processor: assemble the node from `get_schema_type`,
`serialize` and `serialize_extra`.  For every default processor the extra
fields are `{}` except for the dict processor, whose side table passes the
engine's checks (it is a dict keyed by the string `KEYS_FIELD`, distinct from
the type and value fields).  A `pluginP` entry is unreachable from
`resolveSerializeProc` (plugins are registered under string keys); its
serialize body is user code outside this repository. -/
def procCallSave : Nat → ProcId → PyVal → Store → Except PyErr (Json × Store)
  | 0, _, _, _ => .error .recursionError
  | fuel + 1, p, v, ts =>
      match p, v with
      | .intP, .intV n => .ok (mkNode (get_import_path .intT) (.s (toString n)), ts)
      | .floatP, .floatV r => .ok (mkNode (get_import_path .floatT) (.s r), ts)
      | .complexP, .complexV r => .ok (mkNode (get_import_path .complexT) (.s r), ts)
      | .strP, .strV s => .ok (mkNode (get_import_path .strT) (.s s), ts)
      | .boolP, .boolV b => .ok (mkNode (get_import_path .boolT) (.b b), ts)
      | .noneP, .noneV => .ok (mkNode (get_import_path .noneT) .null, ts)
      | .listP, .listV xs =>
          match serializeSeq fuel xs ts with
          | .error e => .error e
          | .ok (js, ts2) => .ok (mkNode (get_import_path .listT) (.arr js), ts2)
      | .setP, .setV xs =>
          match serializeSeq fuel xs ts with
          | .error e => .error e
          | .ok (js, ts2) => .ok (mkNode (get_import_path .setT) (.arr js), ts2)
      | .tupleP, .tupleV xs =>
          match serializeSeq fuel xs ts with
          | .error e => .error e
          | .ok (js, ts2) => .ok (mkNode (get_import_path .tupleT) (.arr js), ts2)
      | .dictP, .dictV kvs =>
          match serializeDictVals fuel kvs ts [] with
          | .error e => .error e
          | .ok (vals, ts2) =>
              match serializeDictKeys fuel kvs ts2 [] with
              | .error e => .error e
              | .ok (keyTable, ts3) =>
                  .ok (.obj [(TYPE_FIELD, .s (get_import_path .dictT)),
                             (VALUE_FIELD, .obj vals),
                             (KEYS_FIELD, .obj keyTable)], ts3)
      | .dataclassP, .dataclassV _ _ fs =>
          match serializeFields fuel fs ts [] with
          | .error e => .error e
          | .ok (fjs, ts2) => .ok (mkNode DATACLASS_NAME (.obj fjs), ts2)
      | .numpyP, .arrayV a =>
          match tensorSerialize fuel a ts with
          | .error e => .error e
          | .ok (tid, ts2) => .ok (mkNode (get_import_path .ndarrayT) (.s tid), ts2)
      | .pluginP _, _ =>
          .error (.typeError "plugin serialize bodies are user code outside this repository")
      | _, _ =>
          .error (.typeError "processor applied to a value of an unexpected runtime type")

/-- processors/base.py `ListBaseProcessor.serialize`: recursively serialize
each element in iteration order. -/
def serializeSeq : Nat → List PyVal → Store → Except PyErr (List Json × Store)
  | 0, _, _ => .error .recursionError
  | _ + 1, [], ts => .ok ([], ts)
  | fuel + 1, x :: xs, ts =>
      match serializeVal fuel x ts with
      | .error e => .error e
      | .ok (j, ts2) =>
          match serializeSeq fuel xs ts2 with
          | .error e => .error e
          | .ok (js, ts3) => .ok (j :: js, ts3)

/-- processors/iterable.py `DictProcessor.serialize`: the loop
`results[str(k)] = serializer.serialize(v)` over the entries in iteration
order, with `acc` the dict built so far (a colliding stringified key silently
overwrites). -/
def serializeDictVals : Nat → List (PyVal × PyVal) → Store →
    List (String × Json) → Except PyErr (List (String × Json) × Store)
  | 0, _, _, _ => .error .recursionError
  | _ + 1, [], ts, acc => .ok (acc, ts)
  | fuel + 1, (k, v) :: kvs, ts, acc =>
      match pyStr fuel k with
      | .error e => .error e
      | .ok key =>
          match serializeVal fuel v ts with
          | .error e => .error e
          | .ok (j, ts2) => serializeDictVals fuel kvs ts2 (objSet acc key j)

/-- processors/iterable.py `DictProcessor.serialize_extra`: the side-table
loop `schema[KEYS_FIELD][str(k)] = serializer.serialize(k)` over the keys in
iteration order, with `acc` the table built so far. -/
def serializeDictKeys : Nat → List (PyVal × PyVal) → Store →
    List (String × Json) → Except PyErr (List (String × Json) × Store)
  | 0, _, _, _ => .error .recursionError
  | _ + 1, [], ts, acc => .ok (acc, ts)
  | fuel + 1, (k, _) :: kvs, ts, acc =>
      match pyStr fuel k with
      | .error e => .error e
      | .ok key =>
          match serializeVal fuel k ts with
          | .error e => .error e
          | .ok (j, ts2) => serializeDictKeys fuel kvs ts2 (objSet acc key j)

/-- processors/iterable.py `DataclassProcessor.serialize`: serialize each
declared field, in declaration order, into a name-to-node mapping (`acc` the
mapping built so far; dataclass field names are unique). -/
def serializeFields : Nat → List (String × PyVal) → Store →
    List (String × Json) → Except PyErr (List (String × Json) × Store)
  | 0, _, _, _ => .error .recursionError
  | _ + 1, [], ts, acc => .ok (acc, ts)
  | fuel + 1, (name, v) :: fs, ts, acc =>
      match serializeVal fuel v ts with
      | .error e => .error e
      | .ok (j, ts2) => serializeFields fuel fs ts2 (objSet acc name j)

/-- processors/base.py `TensorProcessor.serialize` for the numpy processor:
`to_cpu` and `to_numpy` are both the identity on a numpy array, then
`process_tensor`. -/
def tensorSerialize : Nat → NDArr → Store → Except PyErr (String × Store)
  | 0, _, _ => .error .recursionError
  | fuel + 1, a, ts => processTensor fuel a ts

/-- processors/base.py `TensorProcessor.process_tensor` as written in src:
`_id = str(len(tensors))`, then `tensors[_id] = self.serialize(tensor)` — the
right-hand side re-enters `TensorProcessor.serialize` (which calls
`process_tensor` again) instead of storing the tensor, so the two methods
recurse into each other unboundedly; the assignment and the `return _id`
after it are dead code. -/
def processTensor : Nat → NDArr → Store → Except PyErr (String × Store)
  | 0, _, _ => .error .recursionError
  | fuel + 1, a, ts =>
      let tid := toString ts.length
      match tensorSerialize fuel a ts with
      | .error e => .error e
      | .ok (innerId, ts2) => .ok (tid, storeSet ts2 tid (.strId innerId))

end

mutual

/-- Python `==` on embedded values, used for dict-key insertion on load.
Structural; Python's cross-type numeric equality (`1 == 1.0 == True`) and
order-insensitive set equality are not modelled (no claim exercises either). -/
def pyValBeq : PyVal → PyVal → Bool
  | .intV a, .intV b => a == b
  | .floatV a, .floatV b => a == b
  | .complexV a, .complexV b => a == b
  | .strV a, .strV b => a == b
  | .boolV a, .boolV b => a == b
  | .noneV, .noneV => true
  | .listV a, .listV b => pyValSeqBeq a b
  | .setV a, .setV b => pyValSeqBeq a b
  | .tupleV a, .tupleV b => pyValSeqBeq a b
  | .dictV a, .dictV b => pyValPairsBeq a b
  | .dataclassV m1 c1 f1, .dataclassV m2 c2 f2 =>
      m1 == m2 && c1 == c2 && pyValFieldsBeq f1 f2
  | .arrayV a, .arrayV b => a == b
  | .customV m1 c1, .customV m2 c2 => m1 == m2 && c1 == c2
  | _, _ => false
termination_by a _ => sizeOf a

/-- Elementwise `==` on value sequences. -/
def pyValSeqBeq : List PyVal → List PyVal → Bool
  | [], [] => true
  | x :: xs, y :: ys => pyValBeq x y && pyValSeqBeq xs ys
  | _, _ => false
termination_by a _ => sizeOf a

/-- Entrywise `==` on dict entry lists. -/
def pyValPairsBeq : List (PyVal × PyVal) → List (PyVal × PyVal) → Bool
  | [], [] => true
  | (k1, v1) :: xs, (k2, v2) :: ys =>
      pyValBeq k1 k2 && pyValBeq v1 v2 && pyValPairsBeq xs ys
  | _, _ => false
termination_by a _ => sizeOf a

/-- Entrywise `==` on named field lists. -/
def pyValFieldsBeq : List (String × PyVal) → List (String × PyVal) → Bool
  | [], [] => true
  | (n1, v1) :: xs, (n2, v2) :: ys =>
      n1 == n2 && pyValBeq v1 v2 && pyValFieldsBeq xs ys
  | _, _ => false
termination_by a _ => sizeOf a

end

/-- Python dict assignment `results[key] = v` for value-keyed dicts built on
load: overwrite in place on an equal key, append otherwise. -/
def pyDictSet (kvs : List (PyVal × PyVal)) (k v : PyVal) : List (PyVal × PyVal) :=
  match kvs with
  | [] => [(k, v)]
  | (k2, v2) :: rest =>
      if pyValBeq k2 k then (k, v) :: rest else (k2, v2) :: pyDictSet rest k v

/-- Python dict assignment `dc_kwargs[name] = v` for string-keyed value dicts. -/
def pyFieldsSet (kvs : List (String × PyVal)) (k : String) (v : PyVal) :
    List (String × PyVal) :=
  match kvs with
  | [] => [(k, v)]
  | (k2, v2) :: rest =>
      if k2 = k then (k, v) :: rest else (k2, v2) :: pyFieldsSet rest k v

/-- Python `set(results)` on load: keep the first occurrence of each distinct
element (`acc` accumulates in reverse). -/
def pyDedupAux : List PyVal → List PyVal → List PyVal
  | [], acc => acc.reverse
  | x :: xs, acc =>
      if acc.any (pyValBeq x) then pyDedupAux xs acc else pyDedupAux xs (x :: acc)

/-- Python `set(results)`: deduplicate, keeping first occurrences. -/
def pyDedup (xs : List PyVal) : List PyVal :=
  pyDedupAux xs []

mutual

/-- The Python value a JSON value denotes after `json.loads` (what a
passthrough processor returns unchanged). -/
def jsonAsPyVal : Json → PyVal
  | .s s => .strV s
  | .b b => .boolV b
  | .null => .noneV
  | .arr js => .listV (jsonSeqAsPyVals js)
  | .obj kvs => .dictV (jsonObjAsPyPairs kvs)
termination_by j => sizeOf j

/-- Elementwise `jsonAsPyVal`. -/
def jsonSeqAsPyVals : List Json → List PyVal
  | [] => []
  | j :: js => jsonAsPyVal j :: jsonSeqAsPyVals js
termination_by js => sizeOf js

/-- Entrywise `jsonAsPyVal` with string keys. -/
def jsonObjAsPyPairs : List (String × Json) → List (PyVal × PyVal)
  | [] => []
  | (k, j) :: kvs => (.strV k, jsonAsPyVal j) :: jsonObjAsPyPairs kvs
termination_by kvs => sizeOf kvs

end

/-- Decimal digits to a natural number; `none` on a non-digit. -/
def decDigitsAux : List Char → Nat → Option Nat
  | [], acc => some acc
  | c :: cs, acc =>
      if c.isDigit then decDigitsAux cs (acc * 10 + (c.toNat - 48)) else none

/-- A nonempty all-digit character list as a natural number. -/
def parseDecNat : List Char → Option Nat
  | [] => none
  | cs => decDigitsAux cs 0

/-- Python `int(s)` for a decimal literal with an optional sign, as applied by
`NumberProcessor.deserialize` for the `int` type; a malformed literal raises
`ValueError`.  (Surrounding whitespace and underscore separators, which
CPython also accepts, are not modelled; the codec only feeds back strings it
produced with `str(value)`.) -/
def pyIntOfString (s : String) : Except PyErr Int :=
  let bad : Except PyErr Int :=
    .error (.valueError ("invalid literal for int() with base 10: " ++ s))
  match s.data with
  | '-' :: cs =>
      match parseDecNat cs with
      | some n => .ok (-(n : Int))
      | none => bad
  | '+' :: cs =>
      match parseDecNat cs with
      | some n => .ok (n : Int)
      | none => bad
  | cs =>
      match parseDecNat cs with
      | some n => .ok (n : Int)
      | none => bad

/-- processors/base.py `DataProcessor.__call__`, LOAD branch, lines 124-129 as
written in src: every schema-node field whose key is not in `[VALUE_FIELD]` is
collected into the keyword arguments for `deserialize` — the filter list names
only the value field, so the type field is collected too. -/
def loadKwargs (kvs : List (String × Json)) : List (String × Json) :=
  kvs.filter (fun kv => !([VALUE_FIELD].contains kv.1))

mutual

/-- serializer.py `Serializer.deserialize` on the default registry (the engine
a plain `Serializer()` uses in LOAD mode): read the node's type key, resolve
it with `_get_data_type`, resolve the processor (a failed lookup becomes the
processor-not-found `TypeError`), then dispatch the LOAD branch of
`DataProcessor.__call__`.  Indexing a non-dict schema raises `TypeError`. -/
def deserializeSchema : Nat → Store → Json → Except PyErr PyVal
  | 0, _, _ => .error .recursionError
  | fuel + 1, ts, schema =>
      match schema with
      | .obj kvs =>
          match objLookup kvs TYPE_FIELD with
          | none => .error (.keyError TYPE_FIELD)
          | some (.s data_type_str) =>
              match get_data_type data_type_str with
              | .error e => .error e
              | .ok data_type =>
                  match regLookup DEFAULT_PROCESS_MAP (.ofType data_type) with
                  | some p => procCallLoad fuel p ts kvs
                  | none =>
                      .error (.typeError ("Processor for type " ++
                        strOfType data_type ++ " not found." ++
                        " Please create a plugin and use the plugins kwarg for the Serializer."))
          | some _ => .error (.typeError "schema type key is not a string")
      | _ => .error (.typeError "string indices must be integers")

/-- processors/base.py `DataProcessor.__call__`, LOAD branch: collect the
kwargs via `loadKwargs`, read the value field (`KeyError` when absent), and
call the processor's `deserialize`. -/
def procCallLoad : Nat → ProcId → Store → List (String × Json) → Except PyErr PyVal
  | 0, _, _, _ => .error .recursionError
  | fuel + 1, p, ts, kvs =>
      let kwargs := loadKwargs kvs
      match objLookup kvs VALUE_FIELD with
      | none => .error (.keyError VALUE_FIELD)
      | some value => procDeserialize fuel p ts value kwargs

/-- The `deserialize` method of each registered processor, called with the
value field and the collected keyword arguments.  The basic processors
(`NumberProcessor`, `PassthroughProcessor` in processors/basic.py) declare no
`**kwargs`, so any keyword argument raises
`TypeError: deserialize() got an unexpected keyword argument ...`; the
iterable, dataclass and tensor processors declare `**kwargs` and ignore
everything they do not read.  Values of shapes the claims never produce (a
list value for a scalar processor, a non-list value for a list processor,
whose Python behaviour would depend on iteration/dunder details) are mapped
to `TypeError`. -/
def procDeserialize : Nat → ProcId → Store → Json → List (String × Json) →
    Except PyErr PyVal
  | 0, _, _, _, _ => .error .recursionError
  | fuel + 1, p, ts, value, kwargs =>
      match p with
      | .intP =>
          match kwargs with
          | (k, _) :: _ =>
              .error (.typeError ("deserialize() got an unexpected keyword argument \x27" ++ k ++ "\x27"))
          | [] =>
              match value with
              | .s s =>
                  match pyIntOfString s with
                  | .ok n => .ok (.intV n)
                  | .error e => .error e
              | .b b => .ok (.intV (if b then 1 else 0))
              | _ => .error (.typeError "int() argument must be a string or a number")
      | .floatP =>
          match kwargs with
          | (k, _) :: _ =>
              .error (.typeError ("deserialize() got an unexpected keyword argument \x27" ++ k ++ "\x27"))
          | [] =>
              match value with
              | .s s => .ok (.floatV s)
              | .b b => .ok (.floatV (if b then "1.0" else "0.0"))
              | _ => .error (.typeError "float() argument must be a string or a number")
      | .complexP =>
          match kwargs with
          | (k, _) :: _ =>
              .error (.typeError ("deserialize() got an unexpected keyword argument \x27" ++ k ++ "\x27"))
          | [] =>
              match value with
              | .s s => .ok (.complexV s)
              | _ => .error (.typeError "complex() argument must be a string or a number")
      | .strP =>
          match kwargs with
          | (k, _) :: _ =>
              .error (.typeError ("deserialize() got an unexpected keyword argument \x27" ++ k ++ "\x27"))
          | [] => .ok (jsonAsPyVal value)
      | .boolP =>
          match kwargs with
          | (k, _) :: _ =>
              .error (.typeError ("deserialize() got an unexpected keyword argument \x27" ++ k ++ "\x27"))
          | [] => .ok (jsonAsPyVal value)
      | .noneP =>
          match kwargs with
          | (k, _) :: _ =>
              .error (.typeError ("deserialize() got an unexpected keyword argument \x27" ++ k ++ "\x27"))
          | [] => .ok (jsonAsPyVal value)
      | .listP =>
          match value with
          | .arr js =>
              match deserializeSeq fuel ts js with
              | .error e => .error e
              | .ok xs => .ok (.listV xs)
          | _ => .error (.typeError "list value is not a list")
      | .setP =>
          match value with
          | .arr js =>
              match deserializeSeq fuel ts js with
              | .error e => .error e
              | .ok xs => .ok (.setV (pyDedup xs))
          | _ => .error (.typeError "set value is not a list")
      | .tupleP =>
          match value with
          | .arr js =>
              match deserializeSeq fuel ts js with
              | .error e => .error e
              | .ok xs => .ok (.tupleV xs)
          | _ => .error (.typeError "tuple value is not a list")
      | .dictP =>
          match objLookup kwargs KEYS_FIELD with
          | none => .error (.keyError KEYS_FIELD)
          | some (.obj key_schemas) =>
              match value with
              | .obj entries => deserializeDictEntries fuel ts key_schemas entries []
              | _ => .error (.typeError "dict value is not a dict")
          | some _ => .error (.typeError "keys table is not a dict")
      | .dataclassP =>
          match value with
          | .obj entries =>
              match deserializeFieldVals fuel ts entries [] with
              | .error e => .error e
              | .ok fs =>
                  .ok (.dataclassV "safestructures.processors.iterable" "Dataclass" fs)
          | _ => .error (.typeError "dataclass value is not a dict")
      | .numpyP =>
          match value with
          | .s tid =>
              match storeLookup ts tid with
              | some (.arr a) => .ok (.arrayV a)
              | some (.strId s) => .ok (.strV s)
              | none => .error (.keyError tid)
          | _ => .error (.keyError "tensor id is not a string")
      | .pluginP _ =>
          .error (.typeError "plugin deserialize bodies are user code outside this repository")

/-- processors/base.py `ListBaseProcessor.deserialize`: recursively
deserialize every element. -/
def deserializeSeq : Nat → Store → List Json → Except PyErr (List PyVal)
  | 0, _, _ => .error .recursionError
  | _ + 1, _, [] => .ok []
  | fuel + 1, ts, j :: js =>
      match deserializeSchema fuel ts j with
      | .error e => .error e
      | .ok v =>
          match deserializeSeq fuel ts js with
          | .error e => .error e
          | .ok vs => .ok (v :: vs)

/-- processors/iterable.py `DictProcessor.deserialize` loop: for each entry of
the value mapping, look up the same stringified key in the side table
(`KeyError` when absent), deserialize the original key object and the value,
and insert (`acc` is the dict built so far). -/
def deserializeDictEntries : Nat → Store → List (String × Json) →
    List (String × Json) → List (PyVal × PyVal) → Except PyErr PyVal
  | 0, _, _, _, _ => .error .recursionError
  | _ + 1, _, _, [], acc => .ok (.dictV acc)
  | fuel + 1, ts, key_schemas, (k, vj) :: rest, acc =>
      match objLookup key_schemas k with
      | none => .error (.keyError k)
      | some key_schema =>
          match deserializeSchema fuel ts key_schema with
          | .error e => .error e
          | .ok key =>
              match deserializeSchema fuel ts vj with
              | .error e => .error e
              | .ok v =>
                  deserializeDictEntries fuel ts key_schemas rest (pyDictSet acc key v)

/-- processors/iterable.py `DataclassProcessor.deserialize` loop:
`dc_kwargs[name] = serializer.deserialize(node)` over the field mapping; the
result populates `dataclasses.make_dataclass("Dataclass", fields)`, whose
fields are the schema's field names in encountered order. -/
def deserializeFieldVals : Nat → Store → List (String × Json) →
    List (String × PyVal) → Except PyErr (List (String × PyVal))
  | 0, _, _, _ => .error .recursionError
  | _ + 1, _, [], acc => .ok acc
  | fuel + 1, ts, (name, vj) :: rest, acc =>
      match deserializeSchema fuel ts vj with
      | .error e => .error e
      | .ok v => deserializeFieldVals fuel ts rest (pyFieldsSet acc name v)

end

/-- Lookup in a string-valued metadata dict (first occurrence; a Python dict
has unique keys). -/
def lookupMeta (md : List (String × String)) (k : String) : Option String :=
  match md with
  | [] => none
  | (k2, v) :: rest => if k2 = k then some v else lookupMeta rest k

/-- Python `metadata[k]`: the value, or `KeyError` when the key is absent. -/
def metaGetItem (md : List (String × String)) (k : String) : Except PyErr String :=
  match lookupMeta md k with
  | some v => .ok v
  | none => .error (.keyError k)

/-- The schema-extraction step of serializer.py `Serializer.load`:
`try: schema = json.loads(metadata[SCHEMA_FIELD]) except KeyError: raise
ValueError(...)`.  Returns the raw schema text (the `json.loads` parse of that
text is Python's json library, outside this codec); a `KeyError` from the
metadata lookup — and only a `KeyError` — is turned into the
invalid-container `ValueError`. -/
def loadSchemaText (md : List (String × String)) (load_path : String) :
    Except PyErr String :=
  match metaGetItem md SCHEMA_FIELD with
  | .ok text => .ok text
  | .error (.keyError _) =>
      .error (.valueError ("File " ++ load_path ++
        " is not a valid safetensors file" ++ " to use with safestructures."))
  | .error e => .error e

/-- Python dict assignment on a string-valued metadata dict: overwrite in
place when the key exists, append otherwise. -/
def metaSet (md : List (String × String)) (k v : String) : List (String × String) :=
  match md with
  | [] => [(k, v)]
  | (k2, v2) :: rest =>
      if k2 = k then (k, v) :: rest else (k2, v2) :: metaSet rest k v

/-- Python `metadata.update({SCHEMA_FIELD: ..., VERSION_FIELD: ...})`: the two
assignments in order. -/
def metaUpdateReserved (md : List (String × String)) (schemaText : String) :
    List (String × String) :=
  metaSet (metaSet md SCHEMA_FIELD schemaText) VERSION_FIELD SCHEMA_VERSION

/-- The metadata handling of serializer.py `Serializer.save`, viewed from the
caller's dictionary: `if not metadata: metadata = {}` rebinds the local name
whenever the caller's dict is falsy (empty), so the subsequent in-place
`update` then mutates a fresh dict and the caller's dict is left untouched;
a non-empty caller dict is updated in place with the reserved schema and
version fields. -/
def callerMetadataAfterSave (m : List (String × String)) (schemaText : String) :
    List (String × String) :=
  if m.isEmpty then m else metaUpdateReserved m schemaText

/-- The `data_type`s registered by defaults.py, in registration order: the
builtin scalar and container types, the null type, the generic-record marker
and the numpy array type. -/
def defaultRegistryTypes : List PyType :=
  [.intT, .floatT, .complexT, .strT, .boolT, .noneT,
   .listT, .setT, .tupleT, .dictT, .markerT, .ndarrayT]

/-- Sanity tie: `defaultRegistryTypes` is exactly the key list of the default
process map. -/
theorem defaultRegistryTypes_eq_map_keys :
    DEFAULT_PROCESS_MAP.map Prod.fst = defaultRegistryTypes.map RegKey.ofType :=
  rfl

/-- Joint divergence of the tensor pipeline: `TensorProcessor.serialize` and
`TensorProcessor.process_tensor` call each other with no base case, so for
every stack budget both end in `RecursionError` (they never produce a value,
and in particular never extend the tensor store). -/
theorem tensor_pipeline_diverges (fuel : Nat) :
    (∀ (a : NDArr) (ts : Store), tensorSerialize fuel a ts = .error .recursionError) ∧
    (∀ (a : NDArr) (ts : Store), processTensor fuel a ts = .error .recursionError) := by
  induction fuel with
  | zero => exact ⟨fun _ _ => rfl, fun _ _ => rfl⟩
  | succ n ih =>
      refine ⟨fun a ts => ?_, fun a ts => ?_⟩
      · show processTensor n a ts = .error .recursionError
        exact ih.2 a ts
      · show (match tensorSerialize n a ts with
          | Except.error e => Except.error e
          | Except.ok (innerId, ts2) =>
              Except.ok (toString ts.length,
                storeSet ts2 (toString ts.length) (TensorVal.strId innerId))) =
          Except.error PyErr.recursionError
        rw [ih.1 a ts]

/-- Serializing a bare numpy array never terminates: for every stack budget
the engine ends in `RecursionError`. -/
theorem array_serialize_diverges (fuel : Nat) (a : NDArr) (ts : Store) :
    serializeVal fuel (.arrayV a) ts = .error .recursionError := by
  match fuel with
  | 0 => rfl
  | 1 => rfl
  | n + 2 =>
      show (match tensorSerialize n a ts with
        | Except.error e => Except.error e
        | Except.ok (tid, ts2) =>
            Except.ok (mkNode (get_import_path .ndarrayT) (Json.s tid), ts2)) =
        Except.error PyErr.recursionError
      rw [(tensor_pipeline_diverges n).1 a ts]

/-- Assigning a key in a metadata dict makes it look up to the new value. -/
theorem lookupMeta_metaSet_self (d : List (String × String)) (k v : String) :
    lookupMeta (metaSet d k v) k = some v := by
  induction d with
  | nil => simp [metaSet, lookupMeta]
  | cons hd tl ih =>
      obtain ⟨k2, v2⟩ := hd
      by_cases h : k2 = k
      · subst h
        simp [metaSet, lookupMeta]
      · simp [metaSet, lookupMeta, h, ih]

/-- Assigning a key in a metadata dict leaves every other key unchanged. -/
theorem lookupMeta_metaSet_other (d : List (String × String)) (k v k2 : String)
    (h : k2 ≠ k) : lookupMeta (metaSet d k v) k2 = lookupMeta d k2 := by
  induction d with
  | nil =>
      simp [metaSet, lookupMeta, Ne.symm h]
  | cons hd tl ih =>
      obtain ⟨a, b⟩ := hd
      by_cases ha : a = k
      · subst ha
        simp [metaSet, lookupMeta, Ne.symm h]
      · by_cases ha2 : a = k2
        · subst ha2
          simp [metaSet, lookupMeta, ha]
        · simp [metaSet, lookupMeta, ha, ha2, ih]

/-- C1: round trip — serializing a supported value in SAVE mode and
deserializing the node in LOAD mode should give back an equal value.  The
code refutes this: the node for the integer `5` is produced as claimed, but
deserializing it raises `TypeError`, because the LOAD branch of
`DataProcessor.__call__` forwards the type field as a keyword argument and
`NumberProcessor.deserialize` accepts none. -/
theorem c1_roundtrip_of_int_raises :
    serializeVal 32 (.intV 5) [] =
      .ok (.obj [(TYPE_FIELD, .s "int"), (VALUE_FIELD, .s "5")], []) ∧
    deserializeSchema 32 [] (.obj [(TYPE_FIELD, .s "int"), (VALUE_FIELD, .s "5")]) =
      .error (.typeError "deserialize() got an unexpected keyword argument \x27type\x27") :=
  ⟨rfl, rfl⟩

/-- C2: in LOAD mode the engine should pass `deserialize` exactly the extra
fields — everything but the type and value fields — as keyword arguments.
The code refutes this: the kwargs filter excludes only the value field, so
for a plain scalar node the type field itself is forwarded, and the dispatch
of a boolean node fails with the unexpected-keyword `TypeError`. -/
theorem c2_type_field_forwarded_to_deserialize :
    loadKwargs [(TYPE_FIELD, .s "int"), (VALUE_FIELD, .s "5")] =
      [(TYPE_FIELD, .s "int")] ∧
    deserializeSchema 32 [] (.obj [(TYPE_FIELD, .s "bool"), (VALUE_FIELD, .b true)]) =
      .error (.typeError "deserialize() got an unexpected keyword argument \x27type\x27") :=
  ⟨rfl, rfl⟩

/-- C3: a plugin processor for a new type should receive the values of that
type.  The code refutes this: `Serializer.__init__` registers the plugin
under `str(p.data_type)` instead of the type itself, so serializing a value
of the plugin's non-dataclass type raises the processor-not-found
`TypeError`, and a value of a dataclass-typed plugin type silently falls back
to the generic dataclass processor. -/
theorem c3_plugin_dispatch_misses :
    (serializerInit [⟨.customT "mymod" "MyType"⟩]).bind
        (fun pm => resolveSerializeProc pm (.customV "mymod" "MyType")) =
      .error (.typeError
        "Processor for type <class \x27mymod.MyType\x27> not found. Please create a plugin and use the plugins kwarg for the Serializer.") ∧
    (serializerInit [⟨.dataclassT "mymod" "MyModelOutput"⟩]).bind
        (fun pm =>
          resolveSerializeProc pm (.dataclassV "mymod" "MyModelOutput" [("x", .intV 1)])) =
      .ok .dataclassP :=
  ⟨rfl, rfl⟩

/-- C4: a plugin whose type duplicates an existing registry entry should make
construction fail.  The code only half does this: a duplicate of a default
entry raises `ValueError` at construction, but a plugin duplicating an
earlier plugin of the same list is not detected (the earlier plugin sits
under a string key, the membership check probes the type key), so
construction succeeds and the second registration silently overwrites the
first. -/
theorem c4_duplicate_plugin_in_list_not_detected :
    serializerInit [⟨.customT "mymod" "MyType"⟩, ⟨.customT "mymod" "MyType"⟩] =
      .ok (DEFAULT_PROCESS_MAP ++
        [(.ofStr "<class \x27mymod.MyType\x27>", .pluginP 1)]) ∧
    serializerInit [⟨.intT⟩] =
      .error (.valueError
        "Processor for <class \x27int\x27> already exists.Processors must be unique.") :=
  ⟨rfl, rfl⟩

/-- C5: every array encountered during a save pass should be inserted into
the store under the id `str(current store size)`, giving ids "0","1","2" for
a structure with three arrays.  The code refutes this: `process_tensor`
stores `self.serialize(tensor)`, which re-enters the tensor pipeline, so
serializing a structure with three arrays ends in `RecursionError` for every
stack budget and no id is ever assigned. -/
theorem c5_three_array_save_diverges (fuel : Nat) (a1 a2 a3 : NDArr) (ts : Store) :
    serializeVal fuel (.listV [.arrayV a1, .arrayV a2, .arrayV a3]) ts =
      .error .recursionError := by
  match fuel with
  | 0 => rfl
  | 1 => rfl
  | 2 => rfl
  | n + 3 =>
      show (match (match serializeVal n (.arrayV a1) ts with
          | Except.error e => Except.error e
          | Except.ok (j, ts2) =>
              match serializeSeq n [.arrayV a2, .arrayV a3] ts2 with
              | Except.error e => Except.error e
              | Except.ok (js, ts3) => Except.ok (j :: js, ts3)) with
        | Except.error e => Except.error e
        | Except.ok (js, ts2) =>
            Except.ok (mkNode (get_import_path .listT) (Json.arr js), ts2)) =
        Except.error PyErr.recursionError
      rw [array_serialize_diverges n a1 ts]

/-- C6: the dictionary with the tuple key `(1, 2)` serializes to a dict node
whose value is keyed by the string "(1, 2)" with a side table recovering the
tuple, and deserializing recovers the dictionary.  The code produces exactly
the claimed node, but deserializing it raises `TypeError` (the forwarded type
field reaches `NumberProcessor.deserialize` while rebuilding the tuple key's
integer elements), so the round trip half of the claim fails. -/
theorem c6_tuple_key_roundtrip_fails :
    serializeVal 32 (.dictV [(.tupleV [.intV 1, .intV 2], .strV "tuple-key")]) [] =
      .ok (.obj [(TYPE_FIELD, .s "dict"),
        (VALUE_FIELD, .obj [("(1, 2)",
          .obj [(TYPE_FIELD, .s "str"), (VALUE_FIELD, .s "tuple-key")])]),
        (KEYS_FIELD, .obj [("(1, 2)",
          .obj [(TYPE_FIELD, .s "tuple"),
            (VALUE_FIELD, .arr [.obj [(TYPE_FIELD, .s "int"), (VALUE_FIELD, .s "1")],
              .obj [(TYPE_FIELD, .s "int"), (VALUE_FIELD, .s "2")]])])])], []) ∧
    deserializeSchema 32 []
      (.obj [(TYPE_FIELD, .s "dict"),
        (VALUE_FIELD, .obj [("(1, 2)",
          .obj [(TYPE_FIELD, .s "str"), (VALUE_FIELD, .s "tuple-key")])]),
        (KEYS_FIELD, .obj [("(1, 2)",
          .obj [(TYPE_FIELD, .s "tuple"),
            (VALUE_FIELD, .arr [.obj [(TYPE_FIELD, .s "int"), (VALUE_FIELD, .s "1")],
              .obj [(TYPE_FIELD, .s "int"), (VALUE_FIELD, .s "2")]])])])]) =
      .error (.typeError "deserialize() got an unexpected keyword argument \x27type\x27") :=
  ⟨rfl, rfl⟩

/-- C7: a dataclass whose exact type has no registered processor serializes
through the generic record fallback to a node typed by the fixed marker —
which the code does —, and deserializing such a node should build a generic
dataclass with the schema's fields.  The code refutes the second half: the
forwarded type field reaches the field values' scalar processors and load
raises `TypeError` for a dataclass with an integer field. -/
theorem c7_generic_record_roundtrip_fails :
    serializeVal 32 (.dataclassV "tests.test_mod" "MyDC" [("x", .intV 5)]) [] =
      .ok (.obj [(TYPE_FIELD, .s DATACLASS_NAME),
        (VALUE_FIELD, .obj [("x",
          .obj [(TYPE_FIELD, .s "int"), (VALUE_FIELD, .s "5")])])], []) ∧
    deserializeSchema 32 []
      (.obj [(TYPE_FIELD, .s DATACLASS_NAME),
        (VALUE_FIELD, .obj [("x",
          .obj [(TYPE_FIELD, .s "int"), (VALUE_FIELD, .s "5")])])]) =
      .error (.typeError "deserialize() got an unexpected keyword argument \x27type\x27") :=
  ⟨rfl, rfl⟩

/-- C8: loading a file whose metadata mapping lacks the reserved schema key
raises the invalid-container `ValueError` (naming the file), not a bare
`KeyError`: the lookup's `KeyError` is caught and re-raised as `ValueError`
by `Serializer.load`. -/
theorem c8_missing_schema_key_is_invalid_container
    (md : List (String × String)) (p : String)
    (h : lookupMeta md SCHEMA_FIELD = none) :
    loadSchemaText md p = .error (.valueError ("File " ++ p ++
      " is not a valid safetensors file" ++ " to use with safestructures.")) := by
  unfold loadSchemaText metaGetItem
  rw [h]

/-- Witness for C8 at a concrete metadata mapping without the schema key. -/
theorem c8_missing_schema_key_witness :
    lookupMeta [("other", "v")] SCHEMA_FIELD = none ∧
    loadSchemaText [("other", "v")] "f.safetensors" =
      .error (.valueError
        "File f.safetensors is not a valid safetensors file to use with safestructures.") :=
  ⟨rfl, c8_missing_schema_key_is_invalid_container [("other", "v")] "f.safetensors" rfl⟩

/-- C9: for every type in the default registry, resolving its emitted type
key back through `_get_data_type` is the identity (builtins round-trip
through their bare name, the marker through the fixed marker string, numpy
through its dotted path), and both "None" and "NoneType" resolve to the null
type. -/
theorem c9_type_key_resolution_roundtrip (t : PyType)
    (ht : t ∈ defaultRegistryTypes) :
    get_data_type (get_import_path t) = .ok t ∧
    get_data_type "None" = .ok .noneT ∧
    get_data_type "NoneType" = .ok .noneT := by
  refine ⟨?_, rfl, rfl⟩
  fin_cases ht <;> rfl

/-- Witness for C9 at the numpy array type (the dotted-path case). -/
theorem c9_type_key_resolution_witness :
    PyType.ndarrayT ∈ defaultRegistryTypes ∧
    (get_data_type (get_import_path .ndarrayT) = .ok .ndarrayT ∧
     get_data_type "None" = .ok .noneT ∧
     get_data_type "NoneType" = .ok .noneT) :=
  ⟨by decide, c9_type_key_resolution_roundtrip .ndarrayT (by decide)⟩

/-- C10 counterexample: the claim says every caller-supplied metadata dict is
mutated in place to contain the reserved schema field; for the empty dict
`save` rebinds its local name to a fresh dict (`if not metadata`), so the
caller's dict still lacks the schema field after save. -/
theorem c10_empty_metadata_unchanged :
    callerMetadataAfterSave [] "schtext" = [] ∧
    lookupMeta (callerMetadataAfterSave [] "schtext") SCHEMA_FIELD = none :=
  ⟨rfl, rfl⟩

/-- C10 (amended): for every non-empty caller-supplied metadata dict, save
updates it in place — afterwards it holds the schema text under the reserved
schema field and the version under the reserved version field, overwriting
any caller entries under those two keys, and every other key reads as
before. -/
theorem c10_nonempty_metadata_updated_in_place
    (m : List (String × String)) (schemaText : String) (hm : m ≠ []) :
    lookupMeta (callerMetadataAfterSave m schemaText) SCHEMA_FIELD = some schemaText ∧
    lookupMeta (callerMetadataAfterSave m schemaText) VERSION_FIELD =
      some SCHEMA_VERSION ∧
    ∀ k, k ≠ SCHEMA_FIELD → k ≠ VERSION_FIELD →
      lookupMeta (callerMetadataAfterSave m schemaText) k = lookupMeta m k := by
  have hne : m.isEmpty = false := by
    cases m with
    | nil => exact absurd rfl hm
    | cons a l => rfl
  unfold callerMetadataAfterSave metaUpdateReserved
  rw [hne]
  simp only [Bool.false_eq_true, if_false]
  refine ⟨?_, ?_, ?_⟩
  · rw [lookupMeta_metaSet_other _ _ _ _ (by decide), lookupMeta_metaSet_self]
  · rw [lookupMeta_metaSet_self]
  · intro k hk1 hk2
    rw [lookupMeta_metaSet_other _ _ _ _ hk2, lookupMeta_metaSet_other _ _ _ _ hk1]

/-- Witness for C10 (amended) at a concrete one-entry metadata dict. -/
theorem c10_nonempty_metadata_witness :
    lookupMeta (callerMetadataAfterSave [("other", "v")] "schtext") SCHEMA_FIELD =
      some "schtext" ∧
    lookupMeta (callerMetadataAfterSave [("other", "v")] "schtext") VERSION_FIELD =
      some SCHEMA_VERSION ∧
    lookupMeta (callerMetadataAfterSave [("other", "v")] "schtext") "other" =
      lookupMeta [("other", "v")] "other" :=
  have h := c10_nonempty_metadata_updated_in_place [("other", "v")] "schtext"
    (by decide)
  ⟨h.1, h.2.1, h.2.2 "other" (by decide) (by decide)⟩

end Safestructures
